import Mathlib

/-!
# Verification of the icon-generation scripts

Shallow embedding of the repository's six icon-generation scripts
(`create_final_icon.py`, `create_full_icon.py`, `create_icon.py`,
`create_modern_icon.py`, `create_overview_icon.py`, `create_terminal_icon.py`).

The scripts draw a square master canvas with a 2D raster API and export
resized PNG variants.  We embed:

* the `rounded_rectangle` helper (identical in five of the six files):
  two axis-aligned rectangle fills plus four 90-degree pie-slice fills,
  modelled as decidable predicates on integer pixel coordinates;
* the multi-size export loop (`img.resize` + `save`) over an `Image`
  record carrying width, height and a pixel function;
* the filesystem effects (`os.makedirs('assets', exist_ok=True)`,
  `img.save('assets/…')`) as an operation list with an explicit
  success/failure semantics;
* the font-resolution loops (probe an ordered path list with
  `os.path.exists`, `try: truetype … except: continue`, final
  `load_default()` fallback).

External drawing primitives (PIL's `rectangle`, `pieslice`, `resize`) are
modelled by their idealized rasterization semantics: a rectangle fill is the
set of integer points inside the inclusive bounding box, a pie slice is the
set of integer points of the closed disc restricted to the slice's closed
quadrant, and `resize` produces an image of exactly the target dimensions
whose pixels are computed deterministically from the source pixels.
-/

namespace IconGen

/-! ## Definitions: rounded-rectangle geometry -/

/-- Square of an integer, used for squared Euclidean distances. -/
def sq (a : Int) : Int := a * a

/-- Pixel set of PIL's `draw.rectangle([(x0, y0), (x1, y1)], fill=…)`:
integer points inside the inclusive bounding box. -/
def rectPix (x0 y0 x1 y1 x y : Int) : Prop :=
  x0 ≤ x ∧ x ≤ x1 ∧ y0 ≤ y ∧ y ≤ y1

/-- Closed disc of radius `r` centred at `(cx, cy)`, on integer points. -/
def discPix (cx cy r x y : Int) : Prop :=
  sq (x - cx) + sq (y - cy) ≤ sq r

instance (x0 y0 x1 y1 x y : Int) : Decidable (rectPix x0 y0 x1 y1 x y) := by
  unfold rectPix; infer_instance

instance (cx cy r x y : Int) : Decidable (discPix cx cy r x y) := by
  unfold discPix; infer_instance

/-- First fill of `rounded_rectangle` (src/create_final_icon.py line 19):
`draw.rectangle([(x0, y0 + radius), (x1, y1 - radius)], fill=fill)` —
the full-width horizontal band. -/
def hBand (x0 y0 x1 y1 r x y : Int) : Prop :=
  rectPix x0 (y0 + r) x1 (y1 - r) x y

/-- Second fill (line 20):
`draw.rectangle([(x0 + radius, y0), (x1 - radius, y1)], fill=fill)` —
the full-height vertical band. -/
def vBand (x0 y0 x1 y1 r x y : Int) : Prop :=
  rectPix (x0 + r) y0 (x1 - r) y1 x y

/-- Third fill (line 21): `draw.pieslice([(x0, y0), (x0+2r, y0+2r)], 180, 270)` —
the top-left quarter disc, centred at `(x0+r, y0+r)`, covering directions
from 180° (left) to 270° (up): points with `x ≤ cx` and `y ≤ cy`. -/
def sliceTL (x0 y0 r x y : Int) : Prop :=
  discPix (x0 + r) (y0 + r) r x y ∧ x ≤ x0 + r ∧ y ≤ y0 + r

/-- Fourth fill (line 22): `draw.pieslice([(x1-2r, y0), (x1, y0+2r)], 270, 360)` —
the top-right quarter disc, centred at `(x1-r, y0+r)`. -/
def sliceTR (x1 y0 r x y : Int) : Prop :=
  discPix (x1 - r) (y0 + r) r x y ∧ x1 - r ≤ x ∧ y ≤ y0 + r

/-- Fifth fill (line 23): `draw.pieslice([(x0, y1-2r), (x0+2r, y1)], 90, 180)` —
the bottom-left quarter disc, centred at `(x0+r, y1-r)`. -/
def sliceBL (x0 y1 r x y : Int) : Prop :=
  discPix (x0 + r) (y1 - r) r x y ∧ x ≤ x0 + r ∧ y1 - r ≤ y

/-- Sixth fill (line 24): `draw.pieslice([(x1-2r, y1-2r), (x1, y1)], 0, 90)` —
the bottom-right quarter disc, centred at `(x1-r, y1-r)`. -/
def sliceBR (x1 y1 r x y : Int) : Prop :=
  discPix (x1 - r) (y1 - r) r x y ∧ x1 - r ≤ x ∧ y1 - r ≤ y

/-- The pixel set painted by `rounded_rectangle(draw, (x0,y0,x1,y1), r, fill)`:
the union of the six fills, in the order the source issues them. -/
def roundedRectPix (x0 y0 x1 y1 r x y : Int) : Prop :=
  hBand x0 y0 x1 y1 r x y ∨ vBand x0 y0 x1 y1 r x y ∨
  sliceTL x0 y0 r x y ∨ sliceTR x1 y0 r x y ∨
  sliceBL x0 y1 r x y ∨ sliceBR x1 y1 r x y

/-- The ideal geometric rounded-rectangle region of box `(x0,y0,x1,y1)` and
radius `r`, rasterized on the integer grid — stated from the specification's
words: a point of the box belongs to the region unless it lies strictly
inside one of the four corner squares and outside the corresponding corner
disc. -/
def idealRoundedPix (x0 y0 x1 y1 r x y : Int) : Prop :=
  rectPix x0 y0 x1 y1 x y ∧
  (x < x0 + r → y < y0 + r → discPix (x0 + r) (y0 + r) r x y) ∧
  (x1 - r < x → y < y0 + r → discPix (x1 - r) (y0 + r) r x y) ∧
  (x < x0 + r → y1 - r < y → discPix (x0 + r) (y1 - r) r x y) ∧
  (x1 - r < x → y1 - r < y → discPix (x1 - r) (y1 - r) r x y)

instance (x0 y0 x1 y1 r x y : Int) : Decidable (hBand x0 y0 x1 y1 r x y) := by
  unfold hBand; infer_instance

instance (x0 y0 x1 y1 r x y : Int) : Decidable (vBand x0 y0 x1 y1 r x y) := by
  unfold vBand; infer_instance

instance (x0 y0 r x y : Int) : Decidable (sliceTL x0 y0 r x y) := by
  unfold sliceTL; infer_instance

instance (x1 y0 r x y : Int) : Decidable (sliceTR x1 y0 r x y) := by
  unfold sliceTR; infer_instance

instance (x0 y1 r x y : Int) : Decidable (sliceBL x0 y1 r x y) := by
  unfold sliceBL; infer_instance

instance (x1 y1 r x y : Int) : Decidable (sliceBR x1 y1 r x y) := by
  unfold sliceBR; infer_instance

instance (x0 y0 x1 y1 r x y : Int) : Decidable (roundedRectPix x0 y0 x1 y1 r x y) := by
  unfold roundedRectPix; infer_instance

instance (x0 y0 x1 y1 r x y : Int) : Decidable (idealRoundedPix x0 y0 x1 y1 r x y) := by
  unfold idealRoundedPix; infer_instance

/-! ## Definitions: image model and multi-size export -/

/-- RGBA pixel value, one `Int` channel each for red, green, blue, alpha. -/
abbrev Color := Int × Int × Int × Int

/-- In-memory raster canvas: a PIL `Image` in mode RGBA, carrying its width,
height, and the color at each coordinate. -/
structure Image where
  w : Nat
  h : Nat
  px : Nat → Nat → Color

/-- Model of `img.resize((s, s), Image.Resampling.LANCZOS)`: returns a NEW
image of exactly the requested dimensions whose every pixel is computed
deterministically from the source image's pixels (the external library's
Lanczos kernel is abstracted to deterministic coordinate resampling; the
claims below depend only on determinism and the output dimensions). -/
def resize (img : Image) (s : Nat) : Image :=
  { w := s, h := s, px := fun i j => img.px (i * img.w / s) (j * img.h / s) }

/-- Output filename of the size-suffixed variants:
`f'assets/icon_{size_variant}.png'`. -/
def iconName (s : Nat) : String :=
  "assets/icon_" ++ toString s ++ ".png"

/-- The size list of src/create_final_icon.py line 86 (also line 57 of
src/create_full_icon.py): `sizes = [512, 256, 128, 64, 32, 16]`. -/
def finalSizes : List Nat := [512, 256, 128, 64, 32, 16]

/-- The per-size export bodies of the loop: `(filename, resize master s)`
for each size in source order. -/
def exportFiles (m : Image) (sizes : List Nat) : List (String × Image) :=
  sizes.map fun s => (iconName s, resize m s)

/-- The full export pipeline of src/create_final_icon.py lines 86-95: resize
the master to each listed size saving `assets/icon_<size>.png`, then resize
the master to 512 and save it as the un-suffixed alias `assets/icon.png`.
Returns the (filename, image) pairs in the order written. -/
def runFinalExporter (m : Image) : List (String × Image) :=
  exportFiles m finalSizes ++ [("assets/icon.png", resize m 512)]

/-- Pixel-identical images: same dimensions and the same color at every
coordinate. -/
def pixelEq (a b : Image) : Prop :=
  a.w = b.w ∧ a.h = b.h ∧ ∀ i j, a.px i j = b.px i j

/-- One iteration of the export loop
(`for size_variant in sizes: resized = img.resize(...); resized.save(...)`):
the loop state is the master image together with the files written so far;
the iteration reads the master, never reassigns it. -/
def exportStep (st : Image × List (String × Image)) (s : Nat) :
    Image × List (String × Image) :=
  (st.1, st.2 ++ [(iconName s, resize st.1 s)])

/-- The export loop run over a size list, starting from the master and no
files written. -/
def exportLoop (m : Image) (sizes : List Nat) : Image × List (String × Image) :=
  sizes.foldl exportStep (m, [])

/-! ## Definitions: per-script structure (master canvas and export list) -/

/-- One file export of a script: either save the master canvas itself
(`img.save(name)`), or save a resample of the master
(`img.resize((s, s), LANCZOS).save(name)`). These are the only two ways any
of the six scripts produces an output file — no variant is redrawn from
drawing primitives. -/
inductive ExportOp where
  | saveMaster (name : String)
  | saveResized (size : Nat) (name : String)
deriving DecidableEq

/-- Structure of one icon script: the master canvas dimensions passed to
`Image.new`, the number of master-canvas `Image.new` calls in the file, and
the exports in source order. -/
structure IconScript where
  masterW : Nat
  masterH : Nat
  imageNewCalls : Nat
  exports : List ExportOp
deriving DecidableEq

/-- An export is derived purely from the master: saving the master verbatim,
or resampling it strictly downward. -/
def exportFromMaster (mw : Nat) : ExportOp → Prop
  | .saveMaster _ => True
  | .saveResized s _ => s < mw

instance (mw : Nat) (e : ExportOp) : Decidable (exportFromMaster mw e) := by
  cases e <;> unfold exportFromMaster <;> infer_instance

/-- src/create_final_icon.py: 1024-square master (line 13), one `Image.new`,
exports at lines 82 and 86-94. -/
def createFinalIcon : IconScript :=
  { masterW := 1024, masterH := 1024, imageNewCalls := 1,
    exports :=
      [.saveMaster "assets/icon_1024.png",
       .saveResized 512 "assets/icon_512.png",
       .saveResized 256 "assets/icon_256.png",
       .saveResized 128 "assets/icon_128.png",
       .saveResized 64 "assets/icon_64.png",
       .saveResized 32 "assets/icon_32.png",
       .saveResized 16 "assets/icon_16.png",
       .saveResized 512 "assets/icon.png"] }

/-- src/create_full_icon.py: 1024-square master (line 13), exports at lines
53 and 57-65. -/
def createFullIcon : IconScript :=
  { masterW := 1024, masterH := 1024, imageNewCalls := 1,
    exports :=
      [.saveMaster "assets/icon_1024.png",
       .saveResized 512 "assets/icon_512.png",
       .saveResized 256 "assets/icon_256.png",
       .saveResized 128 "assets/icon_128.png",
       .saveResized 64 "assets/icon_64.png",
       .saveResized 32 "assets/icon_32.png",
       .saveResized 16 "assets/icon_16.png",
       .saveResized 512 "assets/icon.png"] }

/-- src/create_icon.py: 512-square master (line 7), exports at lines 65 and
69-71. -/
def createIcon : IconScript :=
  { masterW := 512, masterH := 512, imageNewCalls := 1,
    exports :=
      [.saveMaster "assets/icon.png",
       .saveResized 256 "assets/icon_256.png",
       .saveResized 128 "assets/icon_128.png",
       .saveResized 64 "assets/icon_64.png",
       .saveResized 32 "assets/icon_32.png",
       .saveResized 16 "assets/icon_16.png"] }

/-- src/create_modern_icon.py: 512-square master (line 14), exports at lines
72 and 76-78. -/
def createModernIcon : IconScript :=
  { masterW := 512, masterH := 512, imageNewCalls := 1,
    exports :=
      [.saveMaster "assets/icon.png",
       .saveResized 256 "assets/icon_256.png",
       .saveResized 128 "assets/icon_128.png",
       .saveResized 64 "assets/icon_64.png",
       .saveResized 32 "assets/icon_32.png",
       .saveResized 16 "assets/icon_16.png"] }

/-- src/create_overview_icon.py: 512-square master (line 7), exports at lines
79, 83-85 and 89. -/
def createOverviewIcon : IconScript :=
  { masterW := 512, masterH := 512, imageNewCalls := 1,
    exports :=
      [.saveMaster "assets/overview_icon.png",
       .saveResized 256 "assets/overview_icon_256.png",
       .saveResized 128 "assets/overview_icon_128.png",
       .saveResized 64 "assets/overview_icon_64.png",
       .saveResized 32 "assets/overview_icon_32.png",
       .saveResized 16 "assets/overview_icon_16.png",
       .saveMaster "assets/icon.png"] }

/-- src/create_terminal_icon.py: 512-square master (line 8), exports at lines
120 and 124-126. -/
def createTerminalIcon : IconScript :=
  { masterW := 512, masterH := 512, imageNewCalls := 1,
    exports :=
      [.saveMaster "assets/icon.png",
       .saveResized 256 "assets/icon_256.png",
       .saveResized 128 "assets/icon_128.png",
       .saveResized 64 "assets/icon_64.png",
       .saveResized 32 "assets/icon_32.png",
       .saveResized 16 "assets/icon_16.png"] }

/-- The six scripts of the repository. -/
def allScripts : List IconScript :=
  [createFinalIcon, createFullIcon, createIcon,
   createModernIcon, createOverviewIcon, createTerminalIcon]

/-! ## Definitions: filesystem effects -/

/-- Filesystem state for the scripts' effect model: whether the relative
output directory `assets` exists, and which files currently exist in it. -/
structure FsState where
  hasAssets : Bool
  files : List String
deriving DecidableEq

/-- A filesystem effect a script performs: `os.makedirs('assets',
exist_ok=True)`, or `img.save('assets/<file>')`. -/
inductive FsOp where
  | mkdirAssets
  | saveAsset (file : String)
deriving DecidableEq

/-- One effect step. `mkdirAssets` succeeds whether or not the directory
already exists (`exist_ok=True`). `saveAsset` requires the directory to
exist and overwrites any existing file of the same name — writing over an
existing file is never an error; writing into a missing directory fails
(PIL raises `FileNotFoundError`). -/
def fsStep (st : FsState) : FsOp → Option FsState
  | .mkdirAssets => some { st with hasAssets := true }
  | .saveAsset f =>
      if st.hasAssets then
        some { st with files := f :: st.files.erase f }
      else
        none

/-- Run a script's filesystem effects in order; `none` models an uncaught
exception terminating the script. -/
def fsRun (ops : List FsOp) (st : FsState) : Option FsState :=
  ops.foldlM fsStep st

/-- Does a `mkdirAssets` come before the first `saveAsset`? -/
def mkdirPrecedesFirstSave : List FsOp → Bool
  | [] => true
  | .mkdirAssets :: _ => true
  | .saveAsset _ :: _ => false

/-- Filesystem effects of src/create_final_icon.py (lines 81-94). -/
def createFinalIconOps : List FsOp :=
  [.mkdirAssets, .saveAsset "icon_1024.png", .saveAsset "icon_512.png",
   .saveAsset "icon_256.png", .saveAsset "icon_128.png",
   .saveAsset "icon_64.png", .saveAsset "icon_32.png",
   .saveAsset "icon_16.png", .saveAsset "icon.png"]

/-- Filesystem effects of src/create_full_icon.py (lines 52-65). -/
def createFullIconOps : List FsOp :=
  [.mkdirAssets, .saveAsset "icon_1024.png", .saveAsset "icon_512.png",
   .saveAsset "icon_256.png", .saveAsset "icon_128.png",
   .saveAsset "icon_64.png", .saveAsset "icon_32.png",
   .saveAsset "icon_16.png", .saveAsset "icon.png"]

/-- Filesystem effects of src/create_icon.py (lines 65-71): there is NO
`os.makedirs` call anywhere in this script. -/
def createIconOps : List FsOp :=
  [.saveAsset "icon.png", .saveAsset "icon_256.png",
   .saveAsset "icon_128.png", .saveAsset "icon_64.png",
   .saveAsset "icon_32.png", .saveAsset "icon_16.png"]

/-- Filesystem effects of src/create_modern_icon.py (lines 71-78). -/
def createModernIconOps : List FsOp :=
  [.mkdirAssets, .saveAsset "icon.png", .saveAsset "icon_256.png",
   .saveAsset "icon_128.png", .saveAsset "icon_64.png",
   .saveAsset "icon_32.png", .saveAsset "icon_16.png"]

/-- Filesystem effects of src/create_overview_icon.py (lines 78-89). -/
def createOverviewIconOps : List FsOp :=
  [.mkdirAssets, .saveAsset "overview_icon.png",
   .saveAsset "overview_icon_256.png", .saveAsset "overview_icon_128.png",
   .saveAsset "overview_icon_64.png", .saveAsset "overview_icon_32.png",
   .saveAsset "overview_icon_16.png", .saveAsset "icon.png"]

/-- Filesystem effects of src/create_terminal_icon.py (lines 119-126). -/
def createTerminalIconOps : List FsOp :=
  [.mkdirAssets, .saveAsset "icon.png", .saveAsset "icon_256.png",
   .saveAsset "icon_128.png", .saveAsset "icon_64.png",
   .saveAsset "icon_32.png", .saveAsset "icon_16.png"]

/-- A state where `assets` exists and every file any script writes is
already present, for checking overwrite behavior. -/
def fullAssets : FsState :=
  { hasAssets := true,
    files := ["icon.png", "icon_1024.png", "icon_512.png", "icon_256.png",
              "icon_128.png", "icon_64.png", "icon_32.png", "icon_16.png",
              "overview_icon.png", "overview_icon_256.png",
              "overview_icon_128.png", "overview_icon_64.png",
              "overview_icon_32.png", "overview_icon_16.png"] }

/-! ## Definitions: font resolution -/

/-- The outcome of font resolution: a loaded truetype font from a
filesystem path, or PIL's built-in `ImageFont.load_default()`. -/
inductive FontChoice where
  | truetype (path : String)
  | loadDefault
deriving DecidableEq

/-- Font-resolution loop of src/create_final_icon.py lines 31-54 (the same
shape appears in create_full_icon.py, create_modern_icon.py and
create_terminal_icon.py): walk the ordered path list; for each path that
passes `os.path.exists`, try `ImageFont.truetype`; if it raises, `continue`
to the next path; if the loop sets no font, call `ImageFont.load_default()`.
`ex` models `os.path.exists`; `ld` models whether `truetype` succeeds on a
path. -/
def resolveFont (ex ld : String → Bool) : List String → FontChoice
  | [] => .loadDefault
  | p :: ps =>
      if ex p then
        if ld p then .truetype p else resolveFont ex ld ps
      else resolveFont ex ld ps

/-- Single-path pattern of src/create_icon.py lines 34-38: one
`try: ImageFont.truetype(path, 28) except: ImageFont.load_default()`, with
no `os.path.exists` probe and no path list. -/
def resolveFontSingle (ld : String → Bool) (p : String) : FontChoice :=
  if ld p then .truetype p else .loadDefault

/-- Font path list of src/create_final_icon.py lines 32-36 (identical in
create_full_icon.py and create_modern_icon.py). -/
def finalFontPaths : List String :=
  ["/System/Library/Fonts/Monaco.dfont",
   "/System/Library/Fonts/Menlo.ttc",
   "/System/Library/Fonts/Courier.dfont"]

/-- Font path list of src/create_terminal_icon.py lines 67-72. -/
def terminalFontPaths : List String :=
  ["/System/Library/Fonts/Monaco.dfont",
   "/System/Library/Fonts/Menlo.ttc",
   "/System/Library/Fonts/Courier.dfont",
   "/Library/Fonts/Courier New.ttf"]

/-! ## Lemmas -/

/-- A point of a closed disc of nonnegative radius lies in the disc's
bounding square. -/
lemma disc_bounds {cx cy r x y : Int} (hr : 0 ≤ r)
    (h : discPix cx cy r x y) :
    cx - r ≤ x ∧ x ≤ cx + r ∧ cy - r ≤ y ∧ y ≤ cy + r := by
  unfold discPix sq at h
  refine ⟨?_, ?_, ?_, ?_⟩ <;>
    nlinarith [mul_self_nonneg (x - cx), mul_self_nonneg (y - cy),
      mul_self_nonneg (x - cx + r), mul_self_nonneg (x - cx - r),
      mul_self_nonneg (y - cy + r), mul_self_nonneg (y - cy - r)]

/-- Pixel-identical images are equal as canvases. -/
lemma Image.eq_of_pixelEq {a b : Image} (hpe : pixelEq a b) : a = b := by
  obtain ⟨hw, hh, hp⟩ := hpe
  cases a with
  | mk aw ah apx =>
    cases b with
    | mk bw bh bpx =>
      dsimp only at hw hh hp
      subst hw; subst hh
      have hpx : apx = bpx := funext fun i => funext fun j => hp i j
      rw [hpx]

/-- The export loop leaves the master component of its state untouched. -/
lemma exportLoop_fst (sizes : List Nat) :
    ∀ (m : Image) (acc : List (String × Image)),
      (sizes.foldl exportStep (m, acc)).1 = m := by
  induction sizes with
  | nil => intro m acc; rfl
  | cons s rest ih => intro m acc; exact ih m _

/-- The files written by the export loop are exactly the per-size resamples
of the master, in list order. -/
lemma exportLoop_snd (sizes : List Nat) :
    ∀ (m : Image) (acc : List (String × Image)),
      (sizes.foldl exportStep (m, acc)).2 = acc ++ exportFiles m sizes := by
  induction sizes with
  | nil => intro m acc; simp [exportFiles]
  | cons s rest ih =>
      intro m acc
      simp only [List.foldl_cons, exportStep]
      rw [ih m _]
      simp [exportFiles]

/-- Every export of every script is derived from that script's master:
saved verbatim, or resized strictly below the master's edge length. -/
lemma allScripts_exports_from_master :
    ∀ sc ∈ allScripts, ∀ e ∈ sc.exports, exportFromMaster sc.masterW e := by
  decide

/-- The single-path `try/except` of create_icon.py is the degenerate
instance of the probing loop on a one-element list whose existence check
always passes. -/
lemma resolveFontSingle_eq_singleton_probe (ld : String → Bool) (p : String) :
    resolveFontSingle ld p = resolveFont (fun _ => true) ld [p] := rfl

/-! ## Claim C1 -/

/-- Claim C1: for every bounding box `(x0, y0, x1, y1)` with `x0 ≤ x1` and
`y0 ≤ y1` and every radius `r` with `0 ≤ r ≤ min(x1-x0, y1-y0)/2`, the pixel
set filled by the `rounded_rectangle` procedure (two axis-aligned rectangle
fills plus four 90-degree pie-slice fills) equals the ideal geometric
rounded-rectangle region of that box and radius rasterized at the same
resolution — here proved as exact pixel-for-pixel equality, which is within
the claimed one-pixel tolerance at the arc boundary. -/
theorem c1_rounded_rect_eq_ideal (x0 y0 x1 y1 r x y : Int)
    (hx01 : x0 ≤ x1) (hy01 : y0 ≤ y1) (hr : 0 ≤ r)
    (hw : 2 * r ≤ x1 - x0) (hh : 2 * r ≤ y1 - y0) :
    roundedRectPix x0 y0 x1 y1 r x y ↔ idealRoundedPix x0 y0 x1 y1 r x y := by
  unfold roundedRectPix idealRoundedPix hBand vBand
  unfold sliceTL sliceTR sliceBL sliceBR rectPix
  constructor
  · rintro (⟨h1, h2, h3, h4⟩ | ⟨h1, h2, h3, h4⟩ |
      ⟨hd, hx', hy'⟩ | ⟨hd, hx', hy'⟩ | ⟨hd, hx', hy'⟩ | ⟨hd, hx', hy'⟩)
    · exact ⟨⟨h1, h2, by omega, by omega⟩,
        fun _ hc => absurd hc (by omega), fun _ hc => absurd hc (by omega),
        fun _ hc => absurd hc (by omega), fun _ hc => absurd hc (by omega)⟩
    · exact ⟨⟨by omega, by omega, h3, h4⟩,
        fun hc _ => absurd hc (by omega), fun hc _ => absurd hc (by omega),
        fun hc _ => absurd hc (by omega), fun hc _ => absurd hc (by omega)⟩
    · obtain ⟨b1, b2, b3, b4⟩ := disc_bounds hr hd
      exact ⟨⟨by omega, by omega, by omega, by omega⟩,
        fun _ _ => hd, fun hc _ => absurd hc (by omega),
        fun _ hc => absurd hc (by omega), fun hc _ => absurd hc (by omega)⟩
    · obtain ⟨b1, b2, b3, b4⟩ := disc_bounds hr hd
      exact ⟨⟨by omega, by omega, by omega, by omega⟩,
        fun hc _ => absurd hc (by omega), fun _ _ => hd,
        fun hc _ => absurd hc (by omega), fun _ hc => absurd hc (by omega)⟩
    · obtain ⟨b1, b2, b3, b4⟩ := disc_bounds hr hd
      exact ⟨⟨by omega, by omega, by omega, by omega⟩,
        fun _ hc => absurd hc (by omega), fun _ hc => absurd hc (by omega),
        fun _ _ => hd, fun hc _ => absurd hc (by omega)⟩
    · obtain ⟨b1, b2, b3, b4⟩ := disc_bounds hr hd
      exact ⟨⟨by omega, by omega, by omega, by omega⟩,
        fun hc _ => absurd hc (by omega), fun _ hc => absurd hc (by omega),
        fun hc _ => absurd hc (by omega), fun _ _ => hd⟩
  · rintro ⟨⟨hbx1, hbx2, hby1, hby2⟩, cTL, cTR, cBL, cBR⟩
    rcases le_or_lt (y0 + r) y with hy1 | hy1
    · rcases le_or_lt y (y1 - r) with hy2 | hy2
      · exact Or.inl ⟨hbx1, hbx2, hy1, hy2⟩
      · rcases le_or_lt (x0 + r) x with hx1 | hx1
        · rcases le_or_lt x (x1 - r) with hx2 | hx2
          · exact Or.inr (Or.inl ⟨hx1, hx2, hby1, hby2⟩)
          · exact Or.inr (Or.inr (Or.inr (Or.inr (Or.inr
              ⟨cBR hx2 hy2, le_of_lt hx2, le_of_lt hy2⟩))))
        · exact Or.inr (Or.inr (Or.inr (Or.inr (Or.inl
            ⟨cBL hx1 hy2, le_of_lt hx1, le_of_lt hy2⟩))))
    · rcases le_or_lt (x0 + r) x with hx1 | hx1
      · rcases le_or_lt x (x1 - r) with hx2 | hx2
        · exact Or.inr (Or.inl ⟨hx1, hx2, hby1, hby2⟩)
        · exact Or.inr (Or.inr (Or.inr (Or.inl
            ⟨cTR hx2 hy1, le_of_lt hx2, le_of_lt hy1⟩)))
      · exact Or.inr (Or.inr (Or.inl ⟨cTL hx1 hy1, le_of_lt hx1, le_of_lt hy1⟩))

/-- Witness for C1 at the concrete box `(0,0,10,10)` with radius `2`,
pixel `(5,5)`. -/
theorem c1_rounded_rect_eq_ideal_witness :
    roundedRectPix 0 0 10 10 2 5 5 ↔ idealRoundedPix 0 0 10 10 2 5 5 :=
  c1_rounded_rect_eq_ideal 0 0 10 10 2 5 5
    (by decide) (by decide) (by decide) (by decide) (by decide)

/-! ## Claim C2 -/

/-- Counterexample to Claim C2: at box `(0,0,10,10)` with radius `2`, the
pixel `(5,5)` lies in the rounded-rectangle region and is painted by BOTH the
horizontal-band fill and the vertical-band fill, so the six fills issued by
`rounded_rectangle` are not pairwise disjoint. -/
theorem c2_counterexample :
    idealRoundedPix 0 0 10 10 2 5 5 ∧
    hBand 0 0 10 10 2 5 5 ∧ vBand 0 0 10 10 2 5 5 := by decide

/-- Claim C2 (amended): the six fills of `rounded_rectangle` are not pairwise
disjoint — the horizontal and vertical band fills overlap exactly on the
central rectangle `[x0+r, x1-r] × [y0+r, y1-r]`, which is nonempty for every
valid box and radius (its corner `(x0+r, y0+r)` is painted by both bands). -/
theorem c2_band_overlap_is_central_rect (x0 y0 x1 y1 r x y : Int)
    (hr : 0 ≤ r) (hw : 2 * r ≤ x1 - x0) (hh : 2 * r ≤ y1 - y0) :
    ((hBand x0 y0 x1 y1 r x y ∧ vBand x0 y0 x1 y1 r x y) ↔
      rectPix (x0 + r) (y0 + r) (x1 - r) (y1 - r) x y) ∧
    (hBand x0 y0 x1 y1 r (x0 + r) (y0 + r) ∧
      vBand x0 y0 x1 y1 r (x0 + r) (y0 + r)) := by
  unfold hBand vBand rectPix
  constructor
  · constructor
    · rintro ⟨⟨_, _, h3, h4⟩, ⟨h5, h6, _, _⟩⟩; exact ⟨h5, h6, h3, h4⟩
    · rintro ⟨h1, h2, h3, h4⟩; exact ⟨⟨by omega, by omega, h3, h4⟩, h1, h2, by omega, by omega⟩
  · exact ⟨⟨by omega, by omega, by omega, by omega⟩, by omega, by omega, by omega, by omega⟩

/-- Witness for the amended C2 at box `(0,0,10,10)`, radius `2`,
pixel `(5,5)`. -/
theorem c2_band_overlap_is_central_rect_witness :
    ((hBand 0 0 10 10 2 5 5 ∧ vBand 0 0 10 10 2 5 5) ↔
      rectPix 2 2 8 8 5 5) ∧
    (hBand 0 0 10 10 2 2 2 ∧ vBand 0 0 10 10 2 2 2) :=
  c2_band_overlap_is_central_rect 0 0 10 10 2 5 5
    (by decide) (by decide) (by decide)

/-! ## Claim C3 -/

/-- Counterexample to Claim C3: src/create_icon.py writes its first output
PNG without ever creating the `assets` directory — started on a filesystem
where `assets` is absent, its run fails with an uncaught error. -/
theorem c3_counterexample :
    mkdirPrecedesFirstSave createIconOps = false ∧
    fsRun createIconOps { hasAssets := false, files := [] } = none := by
  decide

/-- Claim C3 (amended): five of the six scripts (all but create_icon.py)
create the `assets` directory before their first write and run to completion
from a filesystem without it; create_icon.py performs no directory creation
and fails from such a state, succeeding only when `assets` already exists;
in every script, existing files of the same names are overwritten rather
than causing an error. -/
theorem c3_mkdir_and_overwrite :
    (mkdirPrecedesFirstSave createFinalIconOps = true ∧
     mkdirPrecedesFirstSave createFullIconOps = true ∧
     mkdirPrecedesFirstSave createModernIconOps = true ∧
     mkdirPrecedesFirstSave createOverviewIconOps = true ∧
     mkdirPrecedesFirstSave createTerminalIconOps = true ∧
     mkdirPrecedesFirstSave createIconOps = false) ∧
    ((fsRun createFinalIconOps { hasAssets := false, files := [] }).isSome = true ∧
     (fsRun createFullIconOps { hasAssets := false, files := [] }).isSome = true ∧
     (fsRun createModernIconOps { hasAssets := false, files := [] }).isSome = true ∧
     (fsRun createOverviewIconOps { hasAssets := false, files := [] }).isSome = true ∧
     (fsRun createTerminalIconOps { hasAssets := false, files := [] }).isSome = true ∧
     fsRun createIconOps { hasAssets := false, files := [] } = none ∧
     (fsRun createIconOps { hasAssets := true, files := [] }).isSome = true) ∧
    ((fsRun createFinalIconOps fullAssets).isSome = true ∧
     (fsRun createFullIconOps fullAssets).isSome = true ∧
     (fsRun createIconOps fullAssets).isSome = true ∧
     (fsRun createModernIconOps fullAssets).isSome = true ∧
     (fsRun createOverviewIconOps fullAssets).isSome = true ∧
     (fsRun createTerminalIconOps fullAssets).isSome = true) := by
  decide

/-! ## Claim C4 -/

/-- Counterexample to Claim C4: when every listed path exists but
`ImageFont.truetype` fails on the first one (Monaco), the loop selects the
SECOND path (Menlo) — not "exactly the first path on the list that exists"
as the claim states. -/
theorem c4_counterexample :
    finalFontPaths.head? = some "/System/Library/Fonts/Monaco.dfont" ∧
    (fun _ => true : String → Bool) "/System/Library/Fonts/Monaco.dfont" = true ∧
    resolveFont (fun _ => true)
        (fun p => p != "/System/Library/Fonts/Monaco.dfont") finalFontPaths =
      FontChoice.truetype "/System/Library/Fonts/Menlo.ttc" := by
  decide

/-- Claim C4 (amended): the list-probing scripts select the first path on the
list that exists AND loads successfully (an existing path whose `truetype`
call fails is skipped); if no path qualifies, they fall back to the built-in
default font; resolution is total, so a font-loading failure never
propagates out of the script. -/
theorem c4_first_existing_loadable (ex ld : String → Bool)
    (paths : List String) :
    resolveFont ex ld paths =
      match paths.find? (fun p => ex p && ld p) with
      | some p => FontChoice.truetype p
      | none => FontChoice.loadDefault := by
  induction paths with
  | nil => rfl
  | cons p ps ih =>
      unfold resolveFont
      cases hex : ex p with
      | false => simp [List.find?_cons, hex, ih]
      | true =>
        cases hld : ld p with
        | false => simp [List.find?_cons, hex, hld, ih]
        | true => simp [List.find?_cons, hex, hld]

/-! ## Claim C5 -/

/-- Claim C5: in every script the master canvas is square, is drawn exactly
once (one `Image.new` at the largest size the script uses), and every export
is produced purely from that single master — saved verbatim or strictly
downscaled, never redrawn independently from drawing primitives. -/
theorem c5_square_master_single_draw :
    ∀ sc ∈ allScripts,
      sc.masterW = sc.masterH ∧ sc.imageNewCalls = 1 ∧
      ∀ e ∈ sc.exports, exportFromMaster sc.masterW e := by decide

/-- Witness for C5 at the concrete script create_final_icon.py. -/
theorem c5_square_master_single_draw_witness :
    createFinalIcon.masterW = createFinalIcon.masterH ∧
    createFinalIcon.imageNewCalls = 1 ∧
    ∀ e ∈ createFinalIcon.exports,
      exportFromMaster createFinalIcon.masterW e :=
  c5_square_master_single_draw createFinalIcon (by decide)

/-! ## Claim C6 -/

/-- Claim C6: for every script and every requested target size in its export
list, the exported variant's edge lengths both equal the requested size
exactly, and no exported variant's edge length exceeds the master canvas's
size. -/
theorem c6_variant_dims_exact (m : Image) (sc : IconScript)
    (hsc : sc ∈ allScripts) (s : Nat) (n : String)
    (he : ExportOp.saveResized s n ∈ sc.exports) :
    (resize m s).w = s ∧ (resize m s).h = s ∧ s ≤ sc.masterW := by
  refine ⟨rfl, rfl, ?_⟩
  have h := allScripts_exports_from_master sc hsc _ he
  exact le_of_lt h

/-- Witness for C6: the 512 entry of create_final_icon.py against a
1024-square master. -/
theorem c6_variant_dims_exact_witness :
    (resize ⟨1024, 1024, fun _ _ => (0, 0, 0, 0)⟩ 512).w = 512 ∧
    (resize ⟨1024, 1024, fun _ _ => (0, 0, 0, 0)⟩ 512).h = 512 ∧
    512 ≤ createFinalIcon.masterW :=
  c6_variant_dims_exact ⟨1024, 1024, fun _ _ => (0, 0, 0, 0)⟩ createFinalIcon
    (by decide) 512 "assets/icon_512.png" (by decide)

/-! ## Claim C7 -/

/-- Claim C7: the export pipeline is deterministic and depends only on the
master's pixels and the target sizes — two masters that agree pixel-for-pixel
produce identical output file lists, for the generic per-size loop and for the
full create_final_icon pipeline alike (so two runs on the same master are
pixel-identical). -/
theorem c7_export_deterministic (m1 m2 : Image) (hpe : pixelEq m1 m2)
    (sizes : List Nat) :
    exportFiles m1 sizes = exportFiles m2 sizes ∧
    runFinalExporter m1 = runFinalExporter m2 := by
  rw [Image.eq_of_pixelEq hpe]
  exact ⟨rfl, rfl⟩

/-- Witness for C7 on a concrete 1024-square master and the final size
list. -/
theorem c7_export_deterministic_witness :
    exportFiles ⟨1024, 1024, fun _ _ => (0, 0, 0, 0)⟩ finalSizes =
      exportFiles ⟨1024, 1024, fun _ _ => (0, 0, 0, 0)⟩ finalSizes ∧
    runFinalExporter ⟨1024, 1024, fun _ _ => (0, 0, 0, 0)⟩ =
      runFinalExporter ⟨1024, 1024, fun _ _ => (0, 0, 0, 0)⟩ :=
  c7_export_deterministic _ _ ⟨rfl, rfl, fun _ _ => rfl⟩ finalSizes

/-! ## Claim C8 -/

/-- Claim C8: the exporter of create_final_icon.py given sizes
`[512, 256, 128, 64, 32, 16]` from a 1024-size master produces exactly the
six files `assets/icon_<size>.png`, each with pixel dimensions equal to its
requested size, plus a seventh un-suffixed `assets/icon.png` whose image
content equals that of the 512 entry. -/
theorem c8_final_exporter_files (m : Image) (hw : m.w = 1024) (hh : m.h = 1024) :
    (runFinalExporter m).map (fun e => (e.1, e.2.w, e.2.h)) =
      [("assets/icon_512.png", 512, 512), ("assets/icon_256.png", 256, 256),
       ("assets/icon_128.png", 128, 128), ("assets/icon_64.png", 64, 64),
       ("assets/icon_32.png", 32, 32), ("assets/icon_16.png", 16, 16),
       ("assets/icon.png", 512, 512)] ∧
    (runFinalExporter m).getLast?.map Prod.snd =
      (runFinalExporter m).head?.map Prod.snd :=
  ⟨rfl, rfl⟩

/-- Witness for C8 on a concrete 1024-square master. -/
theorem c8_final_exporter_files_witness :
    (runFinalExporter ⟨1024, 1024, fun _ _ => (0, 0, 0, 0)⟩).map
        (fun e => (e.1, e.2.w, e.2.h)) =
      [("assets/icon_512.png", 512, 512), ("assets/icon_256.png", 256, 256),
       ("assets/icon_128.png", 128, 128), ("assets/icon_64.png", 64, 64),
       ("assets/icon_32.png", 32, 32), ("assets/icon_16.png", 16, 16),
       ("assets/icon.png", 512, 512)] ∧
    (runFinalExporter ⟨1024, 1024, fun _ _ => (0, 0, 0, 0)⟩).getLast?.map Prod.snd =
      (runFinalExporter ⟨1024, 1024, fun _ _ => (0, 0, 0, 0)⟩).head?.map Prod.snd :=
  c8_final_exporter_files ⟨1024, 1024, fun _ _ => (0, 0, 0, 0)⟩ rfl rfl

/-! ## Claim C9 -/

/-- Claim C9: calling `rounded_rectangle` with radius `0` fills exactly the
plain rectangle of the bounding box — the degenerate radius-0 pie slices add
no pixel outside it, and the filled pixel set equals a single rectangle
fill of the whole box. -/
theorem c9_radius_zero_is_plain_rectangle (x0 y0 x1 y1 x y : Int)
    (hx01 : x0 ≤ x1) (hy01 : y0 ≤ y1) :
    roundedRectPix x0 y0 x1 y1 0 x y ↔ rectPix x0 y0 x1 y1 x y := by
  unfold roundedRectPix hBand vBand
  unfold sliceTL sliceTR sliceBL sliceBR rectPix
  constructor
  · rintro (⟨h1, h2, h3, h4⟩ | ⟨h1, h2, h3, h4⟩ |
      ⟨hd, _, _⟩ | ⟨hd, _, _⟩ | ⟨hd, _, _⟩ | ⟨hd, _, _⟩)
    · exact ⟨h1, h2, by omega, by omega⟩
    · exact ⟨by omega, by omega, h3, h4⟩
    all_goals obtain ⟨b1, b2, b3, b4⟩ := disc_bounds le_rfl hd
    all_goals exact ⟨by omega, by omega, by omega, by omega⟩
  · rintro ⟨h1, h2, h3, h4⟩
    exact Or.inl ⟨h1, h2, by omega, by omega⟩

/-- Witness for C9 at the concrete box `(0,0,10,10)`, pixel `(0,0)`. -/
theorem c9_radius_zero_is_plain_rectangle_witness :
    roundedRectPix 0 0 10 10 0 0 0 ↔ rectPix 0 0 10 10 0 0 :=
  c9_radius_zero_is_plain_rectangle 0 0 10 10 0 0 (by decide) (by decide)

/-! ## Claim C10 -/

/-- Claim C10: the export loop never mutates the master image — after the
loop the master is the image it started as, every written file is computed
from the master's original pixels, and the multiset of written files is
independent of the order of the size list. -/
theorem c10_loop_preserves_master (m : Image) (s1 s2 : List Nat)
    (hperm : s1.Perm s2) :
    (exportLoop m s1).1 = m ∧
    (exportLoop m s1).2 = exportFiles m s1 ∧
    (exportLoop m s1).2.Perm (exportLoop m s2).2 := by
  refine ⟨exportLoop_fst s1 m [], ?_, ?_⟩
  · simpa using exportLoop_snd s1 m []
  · rw [show (exportLoop m s1).2 = exportFiles m s1 by simpa using exportLoop_snd s1 m [],
      show (exportLoop m s2).2 = exportFiles m s2 by simpa using exportLoop_snd s2 m []]
    exact hperm.map _

/-- Witness for C10 on a concrete master and the swapped two-element size
lists `[512, 256]` and `[256, 512]`. -/
theorem c10_loop_preserves_master_witness :
    (exportLoop ⟨1024, 1024, fun _ _ => (0, 0, 0, 0)⟩ [512, 256]).1 =
      ⟨1024, 1024, fun _ _ => (0, 0, 0, 0)⟩ ∧
    (exportLoop ⟨1024, 1024, fun _ _ => (0, 0, 0, 0)⟩ [512, 256]).2 =
      exportFiles ⟨1024, 1024, fun _ _ => (0, 0, 0, 0)⟩ [512, 256] ∧
    (exportLoop ⟨1024, 1024, fun _ _ => (0, 0, 0, 0)⟩ [512, 256]).2.Perm
      (exportLoop ⟨1024, 1024, fun _ _ => (0, 0, 0, 0)⟩ [256, 512]).2 :=
  c10_loop_preserves_master ⟨1024, 1024, fun _ _ => (0, 0, 0, 0)⟩ [512, 256]
    [256, 512] (List.Perm.swap 256 512 [])

end IconGen
